import Mathlib

/-!
Verification development for the nexuschess game-analysis pipeline.

The development shallowly embeds the two core source files:
  - the move-classification pipeline, class GameAnalyzer
    (determinePhase, classifyMistake, generateExplanation, analyzeGame);
  - the evaluation-engine adapter, class StockfishEngine
    (analyze, evaluatePosition, terminate, the message-handler queue).

JavaScript numbers are modelled as exact rationals; the chess.js replay
(move list, FEN strings, piece counts) and the engine process replies are
external collaborators, so they enter the embedding as oracle inputs: a
list of per-ply records carrying the values the real code would read back
from chess.js and from the engine.
-/

namespace NexusChess

/-- The tracked player colour, argument playerColor of analyzeGame. -/
inductive Color
  | white
  | black
deriving DecidableEq

/-- Game phase, result type of GameAnalyzer.determinePhase. -/
inductive Phase
  | opening
  | middlegame
  | endgame
deriving DecidableEq

/-- Non-null severity, as stored in a MistakeAnalysis record. -/
inductive Severity
  | blunder
  | mistake
  | inaccuracy
deriving DecidableEq

/-- Oracle input for one ply of the replayed game: the chess.js data
(san, the FEN before and after the move, the piece count after the move)
together with the engine replies the loop body awaits for this ply
(analyzeMove and analyzeEval from engine.analyze on the pre-move
position, evalAfterMove from engine.evaluatePosition on the post-move
position). -/
structure PlyInput where
  san : String
  fenBefore : String
  fenAfter : String
  analyzeMove : String
  analyzeEval : ℚ
  evalAfterMove : ℚ
  pieces : Nat
deriving DecidableEq

/-- MistakeAnalysis record, as pushed onto mistakesList. -/
structure MistakeAnalysis where
  moveNumber : Nat
  fen : String
  playedMove : String
  bestMove : String
  evaluation : ℚ
  previousEval : ℚ
  severity : Severity
  phase : Phase
  explanation : String
deriving DecidableEq

/-- One accuracy bucket: accuracy sum and move count, used both for the
running phase tallies and for the phase entries of the final report. -/
structure PhaseBucket where
  accuracy : ℚ
  moves : Nat
deriving DecidableEq

/-- GameAnalysis, the report returned by analyzeGame. -/
structure GameAnalysis where
  averageAccuracy : ℚ
  blunders : Nat
  mistakes : Nat
  inaccuracies : Nat
  brilliantMoves : Nat
  mistakesList : List MistakeAnalysis
  openingPhase : PhaseBucket
  middlegamePhase : PhaseBucket
  endgamePhase : PhaseBucket
deriving DecidableEq

/-- The mutable locals of the analyzeGame loop (lines 83 to 98 of the
analyzer source): counters, the mistake list, previousEval, the running
accuracy totals and the three phase buckets. -/
structure AnalyzerState where
  blunders : Nat
  mistakes : Nat
  inaccuracies : Nat
  brilliantMoves : Nat
  mistakesList : List MistakeAnalysis
  previousEval : ℚ
  totalMoves : Nat
  totalAccuracy : ℚ
  opening : PhaseBucket
  middlegame : PhaseBucket
  endgame : PhaseBucket
deriving DecidableEq

/-- Initial loop state: all counters zero and previousEval = 0. -/
def initState : AnalyzerState :=
  { blunders := 0
    mistakes := 0
    inaccuracies := 0
    brilliantMoves := 0
    mistakesList := []
    previousEval := 0
    totalMoves := 0
    totalAccuracy := 0
    opening := ⟨0, 0⟩
    middlegame := ⟨0, 0⟩
    endgame := ⟨0, 0⟩ }

/-- GameAnalyzer.determinePhase: moveNumber at most 10 gives opening,
otherwise at most 12 pieces gives endgame, otherwise middlegame. -/
def determinePhase (moveNumber : Nat) (pieces : Nat) : Phase :=
  if moveNumber ≤ 10 then .opening
  else if pieces ≤ 12 then .endgame
  else .middlegame

/-- GameAnalyzer.classifyMistake: tier by the absolute value of the
evaluation drop, thresholds 3, 1.5 and 0.5 pawns. -/
def classifyMistake (evalDrop : ℚ) : Option Severity :=
  if |evalDrop| ≥ 3 then some .blunder
  else if |evalDrop| ≥ 1.5 then some .mistake
  else if |evalDrop| ≥ 0.5 then some .inaccuracy
  else none

/-- The per-move accuracy computation of analyzeGame (lines 139 to 142):
100, overwritten by max 0 (100 - evalDrop * 20) when evalDrop > 0. -/
def accuracyOf (evalDrop : ℚ) : ℚ :=
  if evalDrop > 0 then max 0 (100 - evalDrop * 20) else 100

/-- The colour adjustment of analyzeGame (lines 129 to 130): an engine
score is kept as is for White and negated for Black. -/
def adjustEval (c : Color) (e : ℚ) : ℚ :=
  if c = .white then e else -e

/-- The evaluation drop of analyzeGame (line 132), computed from the
running previousEval and the evaluation after the move, both adjusted. -/
def plyEvalDrop (c : Color) (prevEval evalAfterMove : ℚ) : ℚ :=
  adjustEval c prevEval - adjustEval c evalAfterMove

/-- The loop guard of analyzeGame (lines 105 to 106): a ply at index i
belongs to the tracked player iff the parity of i matches the colour. -/
def isPlayerMove (c : Color) (i : Nat) : Bool :=
  match c with
  | .white => i % 2 == 0
  | .black => i % 2 == 1

/-- Decimal rendering with one digit after the point, standing in for
the JavaScript toFixed(1) call of generateExplanation; only applied to
nonnegative magnitudes in the source. -/
def toFixed1 (q : ℚ) : String :=
  let n : ℤ := round (q * 10)
  toString (n / 10) ++ "." ++ toString (n.natAbs % 10)

/-- GameAnalyzer.generateExplanation: fixed template per severity; the
blunder template interpolates the absolute drop and the engine move, the
other two interpolate only the engine move. The playedMove argument is
passed by the source but unused by every template. -/
def generateExplanation (playedMove : String) (bestMove : String)
    (evalDrop : ℚ) (sev : Severity) : String :=
  match sev with
  | .blunder =>
      "This move loses significant material or position. The evaluation dropped by "
        ++ toFixed1 |evalDrop| ++ " pawns. Consider " ++ bestMove ++ " instead."
  | .mistake =>
      "This move gives away an advantage. A better continuation was "
        ++ bestMove ++ ", maintaining your position."
  | .inaccuracy =>
      "Not the most precise move. " ++ bestMove ++ " would have been slightly better."

/-- Adds one move accuracy into the bucket of the given phase
(lines 147 to 148 of the analyzer source). -/
def bumpPhase (s : AnalyzerState) (ph : Phase) (acc : ℚ) : AnalyzerState :=
  match ph with
  | .opening => { s with opening := ⟨s.opening.accuracy + acc, s.opening.moves + 1⟩ }
  | .middlegame => { s with middlegame := ⟨s.middlegame.accuracy + acc, s.middlegame.moves + 1⟩ }
  | .endgame => { s with endgame := ⟨s.endgame.accuracy + acc, s.endgame.moves + 1⟩ }

/-- Increments the counter of the given severity
(lines 154 to 156 of the analyzer source). -/
def bumpSeverity (s : AnalyzerState) (sev : Severity) : AnalyzerState :=
  match sev with
  | .blunder => { s with blunders := s.blunders + 1 }
  | .mistake => { s with mistakes := s.mistakes + 1 }
  | .inaccuracy => { s with inaccuracies := s.inaccuracies + 1 }

/-- One iteration of the analyzeGame loop (lines 103 to 180) at ply
index i. Opponent plies leave the state unchanged (the source only
replays the move on the board). For a tracked-player ply: the drop is
plyEvalDrop of the running previousEval and the evaluation after the
move; the phase uses move number i / 2 + 1 and the piece count after the
move; accuracy, phase bucket and totals are accumulated; a severity
yields a MistakeAnalysis record, and otherwise a drop below -1 hits the
brilliant branch; finally previousEval becomes evalAfterMove. The
evaluation returned by engine.analyze (analyzeEval, bound to currentEval
in the source at line 119) is read by no later line. -/
def stepPly (c : Color) (i : Nat) (s : AnalyzerState) (p : PlyInput) : AnalyzerState :=
  if isPlayerMove c i then
    let adjustedPrevEval := adjustEval c s.previousEval
    let adjustedCurrentEval := adjustEval c p.evalAfterMove
    let evalDrop := plyEvalDrop c s.previousEval p.evalAfterMove
    let phase := determinePhase (i / 2 + 1) p.pieces
    let moveAccuracy := accuracyOf evalDrop
    let s1 :=
      bumpPhase
        { s with
          totalAccuracy := s.totalAccuracy + moveAccuracy
          totalMoves := s.totalMoves + 1 }
        phase moveAccuracy
    let s2 :=
      match classifyMistake evalDrop with
      | some sev =>
          let s3 := bumpSeverity s1 sev
          let record : MistakeAnalysis :=
            { moveNumber := i / 2 + 1
              fen := p.fenBefore
              playedMove := p.san
              bestMove := p.analyzeMove
              evaluation := adjustedCurrentEval
              previousEval := adjustedPrevEval
              severity := sev
              phase := phase
              explanation := generateExplanation p.san p.analyzeMove evalDrop sev }
          { s3 with mistakesList := s3.mistakesList ++ [record] }
      | none =>
          if evalDrop < -1 then { s1 with brilliantMoves := s1.brilliantMoves + 1 }
          else s1
    { s2 with previousEval := p.evalAfterMove }
  else s

/-- The analyzeGame loop: iterate stepPly over the ply list, carrying
the 0-based index i exactly as the for loop of the source does. -/
def runPlies (c : Color) : Nat → AnalyzerState → List PlyInput → AnalyzerState
  | _, s, [] => s
  | i, s, p :: rest => runPlies c (i + 1) (stepPly c i s p) rest

/-- The report assembly of analyzeGame (lines 184 to 203): averages are
sums divided by counts, 0 when the count is 0. -/
def finalizeReport (s : AnalyzerState) : GameAnalysis :=
  { averageAccuracy := if s.totalMoves > 0 then s.totalAccuracy / (s.totalMoves : ℚ) else 0
    blunders := s.blunders
    mistakes := s.mistakes
    inaccuracies := s.inaccuracies
    brilliantMoves := s.brilliantMoves
    mistakesList := s.mistakesList
    openingPhase :=
      ⟨if s.opening.moves > 0 then s.opening.accuracy / (s.opening.moves : ℚ) else 0,
        s.opening.moves⟩
    middlegamePhase :=
      ⟨if s.middlegame.moves > 0 then s.middlegame.accuracy / (s.middlegame.moves : ℚ) else 0,
        s.middlegame.moves⟩
    endgamePhase :=
      ⟨if s.endgame.moves > 0 then s.endgame.accuracy / (s.endgame.moves : ℚ) else 0,
        s.endgame.moves⟩ }

/-- GameAnalyzer.analyzeGame, as a function of the oracle ply list and
the tracked colour. -/
def analyzeGame (history : List PlyInput) (playerColor : Color) : GameAnalysis :=
  finalizeReport (runPlies playerColor 0 initState history)

/-- Variant of stepPly that follows the words of the specification
claim about the evaluation delta: delta is adjustedEvalBeforeMove minus
adjustedEvalAfterMove with evalBeforeMove taken from the analyze call on
the pre-move position (the analyzeEval oracle field). Every other line
is identical to stepPly; this definition exists only to be compared with
the one embedded from the source. -/
def stepPlySpecC1 (c : Color) (i : Nat) (s : AnalyzerState) (p : PlyInput) : AnalyzerState :=
  if isPlayerMove c i then
    let adjustedPrevEval := adjustEval c s.previousEval
    let adjustedCurrentEval := adjustEval c p.evalAfterMove
    let evalDrop := adjustEval c p.analyzeEval - adjustEval c p.evalAfterMove
    let phase := determinePhase (i / 2 + 1) p.pieces
    let moveAccuracy := accuracyOf evalDrop
    let s1 :=
      bumpPhase
        { s with
          totalAccuracy := s.totalAccuracy + moveAccuracy
          totalMoves := s.totalMoves + 1 }
        phase moveAccuracy
    let s2 :=
      match classifyMistake evalDrop with
      | some sev =>
          let s3 := bumpSeverity s1 sev
          let record : MistakeAnalysis :=
            { moveNumber := i / 2 + 1
              fen := p.fenBefore
              playedMove := p.san
              bestMove := p.analyzeMove
              evaluation := adjustedCurrentEval
              previousEval := adjustedPrevEval
              severity := sev
              phase := phase
              explanation := generateExplanation p.san p.analyzeMove evalDrop sev }
          { s3 with mistakesList := s3.mistakesList ++ [record] }
      | none =>
          if evalDrop < -1 then { s1 with brilliantMoves := s1.brilliantMoves + 1 }
          else s1
    { s2 with previousEval := p.evalAfterMove }
  else s

/-- Loop of the claim-worded classifier variant. -/
def runPliesSpecC1 (c : Color) : Nat → AnalyzerState → List PlyInput → AnalyzerState
  | _, s, [] => s
  | i, s, p :: rest => runPliesSpecC1 c (i + 1) (stepPlySpecC1 c i s p) rest

/-- analyzeGame as the specification claim words it: identical to
analyzeGame except that each delta is computed from the analyze score on
the pre-move position instead of the running previousEval. -/
def analyzeGameSpecC1 (history : List PlyInput) (playerColor : Color) : GameAnalysis :=
  finalizeReport (runPliesSpecC1 playerColor 0 initState history)

/-!
Embedding of the evaluation-engine adapter, class StockfishEngine.

The worker boundary is external, so the embedding is a state machine:
a submission (one analyze or evaluatePosition call) appends a pending
request and writes its two command lines, an incoming worker message is
dispatched to the message-handler queue exactly as the onmessage handler
of the source does, and terminate mirrors worker.terminate(). The
browser path of initialize is modelled as immediate success (worker
created and handshake completed); line parsing is modelled on the parsed
shape a line matches against in the source regexes: an info line carries
an optional depth, an optional cp-or-mate score and an optional pv, a
bestmove line carries the chosen move.
-/

/-- Parsed score of an info line: the regex score (cp|mate) value. -/
inductive ScoreInfo
  | cp (v : ℤ)
  | mate (n : ℤ)
deriving DecidableEq

/-- Parsed fields of an info depth line. -/
structure InfoLine where
  depth : Option Nat := none
  score : Option ScoreInfo := none
  pv : Option (List String) := none
deriving DecidableEq

/-- One worker output line, in parsed form. -/
inductive EngineLine
  | info (l : InfoLine)
  | bestmove (mv : String)
  | other (s : String)
deriving DecidableEq

/-- EngineMove, the interface record a resolved analyze call yields. -/
structure EngineMove where
  move : String
  evaluation : ℚ
  mate : Option ℤ
  depth : Nat
  pv : List String
deriving DecidableEq

/-- The closure variables of one analyze call (lines 53 to 57 of the
adapter source), accumulated while intermediate lines stream in. -/
structure ReqAcc where
  bestMove : String := ""
  evaluation : ℚ := 0
  mate : Option ℤ := none
  currentDepth : Nat := 0
  pv : List String := []
deriving DecidableEq

/-- The info-line branch of the message handler (lines 60 to 83): a
present depth overwrites currentDepth, a present cp score becomes
value / 100 pawns, a present mate score becomes 100 when n is positive
and -100 otherwise while recording n, a present pv overwrites pv. -/
def applyInfo (acc : ReqAcc) (l : InfoLine) : ReqAcc :=
  let acc1 :=
    match l.depth with
    | some d => { acc with currentDepth := d }
    | none => acc
  let acc2 :=
    match l.score with
    | some (.cp v) => { acc1 with evaluation := (v : ℚ) / 100 }
    | some (.mate n) => { acc1 with mate := some n, evaluation := if n > 0 then 100 else -100 }
    | none => acc1
  match l.pv with
  | some moves => { acc2 with pv := moves }
  | none => acc2

/-- One activation of the message handler (lines 59 to 100): an info
line updates the accumulator and resolves nothing, a bestmove line
resolves with the accumulated state, any other line leaves the
accumulator alone; the second component is the resolution value, and a
none means the handler re-enters the queue. -/
def handleLine (acc : ReqAcc) : EngineLine → ReqAcc × Option EngineMove
  | .info l => (applyInfo acc l, none)
  | .bestmove mv =>
      ({ acc with bestMove := mv },
        some ⟨mv, acc.evaluation, acc.mate, acc.currentDepth, acc.pv⟩)
  | .other _ => (acc, none)

/-- Engine error taxonomy named by the specification. The adapter source
constructs none of these: the promise executor of analyze only ever
resolves, so the constructors exist in the outcome type solely to state
the specification claims about them. -/
inductive EngineError
  | terminated
  | timeout
  | unavailable
deriving DecidableEq

/-- Status of one submitted request: still pending with its accumulator,
resolved with an EngineMove, or failed with an error. -/
inductive ReqStatus
  | pending (acc : ReqAcc)
  | resolved (r : EngineMove)
  | failed (e : EngineError)
deriving DecidableEq

/-- True exactly on a failed status. -/
def isFailed : ReqStatus → Bool
  | .failed _ => true
  | _ => false

/-- Observable conduit events: an outbound command line written by send,
or the resolution of the request with the given id. -/
inductive Event
  | write (cmd : String)
  | resolve (id : Nat)
deriving DecidableEq

/-- State of one StockfishEngine instance: the worker field (alive or
null), the ready flag, messageQueue as the list of queued handler ids,
the status of every request in submission order (ids are positions), and
the event log of the conduit. -/
structure EngineState where
  workerAlive : Bool := false
  ready : Bool := false
  queue : List Nat := []
  requests : List ReqStatus := []
  log : List Event := []
deriving DecidableEq

/-- The operations driving the state machine: submit is one analyze or
evaluatePosition call, deliver is one worker message arriving, terminate
is the terminate method. -/
inductive Op
  | submit (fen : String) (depth : Nat)
  | deliver (line : EngineLine)
  | terminate

/-- One step of the adapter. submit follows analyze (lines 49 to 105):
when not ready it first re-initializes the worker (browser path), then
registers the fresh handler at the back of messageQueue and writes the
two command lines; deliver follows onmessage (lines 22 to 37) combined
with the handler body: the front handler is activated, a resolving line
settles its request and logs the resolution, any other line re-enqueues
the handler at the back with the updated accumulator; terminate follows
lines 118 to 124: the worker dies and ready clears, while messageQueue
and every request status stay untouched. -/
def execOp (s : EngineState) : Op → EngineState
  | .submit fen depth =>
      let s0 := if s.ready then s else { s with workerAlive := true, ready := true }
      let id := s0.requests.length
      { s0 with
        requests := s0.requests ++ [.pending {}]
        queue := s0.queue ++ [id]
        log := s0.log ++
          [.write ("position fen " ++ fen), .write ("go depth " ++ toString depth)] }
  | .deliver line =>
      if s.workerAlive then
        match s.queue with
        | [] => s
        | h :: rest =>
          match s.requests.get? h with
          | some (.pending acc) =>
              match handleLine acc line with
              | (_, some r) =>
                  { s with
                    queue := rest
                    requests := s.requests.set h (.resolved r)
                    log := s.log ++ [.resolve h] }
              | (acc2, none) =>
                  { s with
                    queue := rest ++ [h]
                    requests := s.requests.set h (.pending acc2) }
          | _ => { s with queue := rest }
      else s
  | .terminate => { s with workerAlive := false, ready := false }

/-- Runs a list of operations from a given state. -/
def execOps (s : EngineState) (ops : List Op) : EngineState :=
  ops.foldl execOp s

/-- Runs a list of operations from the freshly constructed engine. -/
def execRun (ops : List Op) : EngineState :=
  execOps {} ops

/-- The status of the request with the given id, in submission order. -/
def statusOf (s : EngineState) (id : Nat) : Option ReqStatus :=
  s.requests.get? id

/-- Concrete one-ply input for the delta claim: the analyze call on the
pre-move position reports +2 pawns, the post-move static score is 0. -/
def plyC1 : PlyInput :=
  { san := "e4"
    fenBefore := "fen-before"
    fenAfter := "fen-after"
    analyzeMove := "e2e4"
    analyzeEval := 2
    evalAfterMove := 0
    pieces := 32 }

end NexusChess

namespace NexusChess

/-- bumpPhase never touches the brilliant counter. -/
lemma bumpPhase_brilliantMoves (s : AnalyzerState) (ph : Phase) (a : ℚ) :
    (bumpPhase s ph a).brilliantMoves = s.brilliantMoves := by
  cases ph <;> rfl

/-- bumpSeverity never touches the brilliant counter. -/
lemma bumpSeverity_brilliantMoves (s : AnalyzerState) (sev : Severity) :
    (bumpSeverity s sev).brilliantMoves = s.brilliantMoves := by
  cases sev <;> rfl

/-- A drop classified as none lies strictly inside (-0.5, 0.5], so it is
never below -1. -/
lemma classifyMistake_none_not_lt (d : ℚ) (h : classifyMistake d = none) : ¬ d < -1 := by
  unfold classifyMistake at h
  split_ifs at h with h1 h2 h3
  intro hlt
  exact h3 (le_abs.mpr (Or.inr (by linarith)))

/-- One loop iteration leaves the brilliant counter unchanged: the
increment branch needs a none classification together with drop < -1,
and the two are incompatible. -/
lemma stepPly_brilliantMoves (c : Color) (i : Nat) (s : AnalyzerState) (p : PlyInput) :
    (stepPly c i s p).brilliantMoves = s.brilliantMoves := by
  cases hip : isPlayerMove c i with
  | false => simp [stepPly, hip]
  | true =>
    cases hcl : classifyMistake (plyEvalDrop c s.previousEval p.evalAfterMove) with
    | some sev =>
        simp [stepPly, hip, hcl, bumpPhase_brilliantMoves, bumpSeverity_brilliantMoves]
    | none =>
        have hnb := classifyMistake_none_not_lt _ hcl
        simp [stepPly, hip, hcl, hnb, bumpPhase_brilliantMoves]

/-- The whole loop leaves the brilliant counter unchanged. -/
lemma runPlies_brilliantMoves (c : Color) :
    ∀ (l : List PlyInput) (i : Nat) (s : AnalyzerState),
      (runPlies c i s l).brilliantMoves = s.brilliantMoves := by
  intro l
  induction l with
  | nil => intro i s; rfl
  | cons p rest ih =>
      intro i s
      show (runPlies c (i + 1) (stepPly c i s p) rest).brilliantMoves = s.brilliantMoves
      rw [ih, stepPly_brilliantMoves]

/-- Replacing the analyze evaluation of a ply changes nothing in one
loop iteration: stepPly reads every field of the ply except analyzeEval. -/
lemma stepPly_set_analyzeEval (c : Color) (i : Nat) (s : AnalyzerState) (p : PlyInput) (x : ℚ) :
    stepPly c i s { p with analyzeEval := x } = stepPly c i s p := rfl

/-- Replacing every analyze evaluation changes nothing in the loop. -/
lemma runPlies_map_analyzeEval (c : Color) (f : PlyInput → ℚ) :
    ∀ (l : List PlyInput) (i : Nat) (s : AnalyzerState),
      runPlies c i s (l.map fun p => { p with analyzeEval := f p }) = runPlies c i s l := by
  intro l
  induction l with
  | nil => intro i s; rfl
  | cons p rest ih =>
      intro i s
      show runPlies c (i + 1) (stepPly c i s { p with analyzeEval := f p }) (rest.map _)
          = runPlies c (i + 1) (stepPly c i s p) rest
      rw [stepPly_set_analyzeEval, ih]

/-- C1 counterexample: on a one-ply game analyzed for White, where the
analyze call on the pre-move position reports +2 pawns and the post-move
static score is 0, the code records no mistake (its delta is
previousEval-based: 0 - 0 = 0), while the classifier worded as the claim
states it (delta from the analyze score: 2 - 0 = 2) records one mistake;
the two reports differ. -/
theorem c1_delta_counterexample :
    (analyzeGame [plyC1] Color.white).mistakes = 0 ∧
    (analyzeGameSpecC1 [plyC1] Color.white).mistakes = 1 ∧
    analyzeGame [plyC1] Color.white ≠ analyzeGameSpecC1 [plyC1] Color.white := by
  have h0 : (analyzeGame [plyC1] Color.white).mistakes = 0 := by
    norm_num [analyzeGame, runPlies, stepPly, initState, finalizeReport, isPlayerMove,
      plyEvalDrop, adjustEval, classifyMistake, accuracyOf, determinePhase, bumpPhase, plyC1]
  have h1 : (analyzeGameSpecC1 [plyC1] Color.white).mistakes = 1 := by
    norm_num [analyzeGameSpecC1, runPliesSpecC1, stepPlySpecC1, initState, finalizeReport,
      isPlayerMove, plyEvalDrop, adjustEval, classifyMistake, accuracyOf, determinePhase,
      bumpPhase, bumpSeverity, plyC1]
  refine ⟨h0, h1, fun h => ?_⟩
  rw [h, h1] at h0
  exact Nat.one_ne_zero h0

/-- C1 (amended): the delta of a tracked-player ply is computed from the
running previousEval (the previous tracked ply's after-move score, 0 at
the start) and the after-move score, both colour-adjusted; the
evaluation obtained from analyze on the pre-move position is dead: the
report is invariant under arbitrary rewrites of every analyzeEval
oracle value. -/
theorem c1_amended_analyzeEval_unused (l : List PlyInput) (c : Color) (f : PlyInput → ℚ) :
    analyzeGame (l.map fun p => { p with analyzeEval := f p }) c = analyzeGame l c := by
  unfold analyzeGame
  rw [runPlies_map_analyzeEval]

/-- C2: classifyMistake assigns the tier by the absolute delta in
pawns: at least 3 gives blunder, at least 1.5 gives mistake, at least
0.5 gives inaccuracy, anything smaller gives none. -/
theorem c2_tier_assignment (d : ℚ) :
    (|d| ≥ 3 → classifyMistake d = some Severity.blunder) ∧
    (|d| ≥ 1.5 → |d| < 3 → classifyMistake d = some Severity.mistake) ∧
    (|d| ≥ 0.5 → |d| < 1.5 → classifyMistake d = some Severity.inaccuracy) ∧
    (|d| < 0.5 → classifyMistake d = none) := by
  unfold classifyMistake
  refine ⟨fun h1 => if_pos h1, fun h1 h2 => ?_, fun h1 h2 => ?_, fun h => ?_⟩
  · rw [if_neg (by linarith), if_pos h1]
  · rw [if_neg (by linarith), if_neg (by linarith), if_pos h1]
  · rw [if_neg (by linarith), if_neg (by linarith), if_neg (by linarith)]

/-- C2 witness: the tier thresholds evaluated at 3, -2, 0.5 and 0. -/
theorem c2_tier_assignment_witness :
    classifyMistake 3 = some Severity.blunder ∧
    classifyMistake (-2) = some Severity.mistake ∧
    classifyMistake 0.5 = some Severity.inaccuracy ∧
    classifyMistake 0 = none :=
  ⟨(c2_tier_assignment 3).1 (by norm_num),
    (c2_tier_assignment (-2)).2.1 (by norm_num) (by norm_num),
    (c2_tier_assignment 0.5).2.2.1
      (by rw [abs_of_nonneg (by norm_num : (0 : ℚ) ≤ 0.5)])
      (by rw [abs_of_nonneg (by norm_num : (0 : ℚ) ≤ 0.5)]; norm_num),
    (c2_tier_assignment 0).2.2.2 (by norm_num)⟩

/-- C3: per-ply accuracy is exactly 100 for every delta at most 0, is
max 0 (100 - delta * 20) for positive delta, and is monotonically
non-increasing as a positive delta grows. -/
theorem c3_accuracy_formula (d : ℚ) :
    (d ≤ 0 → accuracyOf d = 100) ∧
    (0 < d → accuracyOf d = max 0 (100 - d * 20)) ∧
    (∀ e, 0 < d → d ≤ e → accuracyOf e ≤ accuracyOf d) := by
  unfold accuracyOf
  refine ⟨fun h => if_neg (by linarith), fun h => if_pos h, fun e hd hde => ?_⟩
  rw [if_pos hd, if_pos (lt_of_lt_of_le hd hde)]
  exact max_le_max le_rfl (by linarith)

/-- C3 witness: accuracy at -1, 1 and 2. -/
theorem c3_accuracy_formula_witness :
    accuracyOf (-1) = 100 ∧
    accuracyOf 1 = max 0 (100 - 1 * 20) ∧
    accuracyOf 2 ≤ accuracyOf 1 :=
  ⟨(c3_accuracy_formula (-1)).1 (by norm_num),
    (c3_accuracy_formula 1).2.1 (by norm_num),
    (c3_accuracy_formula 1).2.2 2 (by norm_num) (by norm_num)⟩

/-- C7: determinePhase is a pure function of the move number (the loop
passes i / 2 + 1 for ply index i) and the remaining piece count: move
number at most 10 gives opening, otherwise piece count at most 12 gives
endgame, otherwise middlegame; the boundaries are exact. -/
theorem c7_phase_boundaries (m pieces : Nat) :
    (m ≤ 10 → determinePhase m pieces = Phase.opening) ∧
    (10 < m → pieces ≤ 12 → determinePhase m pieces = Phase.endgame) ∧
    (10 < m → 12 < pieces → determinePhase m pieces = Phase.middlegame) := by
  unfold determinePhase
  refine ⟨fun h => if_pos h, fun h1 h2 => ?_, fun h1 h2 => ?_⟩
  · rw [if_neg (by omega), if_pos h2]
  · rw [if_neg (by omega), if_neg (by omega)]

/-- C7 witness: move number 10 is opening, move number 11 with 13
pieces is middlegame, 12 pieces at move numbers 11 and 40 is endgame. -/
theorem c7_phase_boundaries_witness :
    determinePhase 10 3 = Phase.opening ∧
    determinePhase 11 13 = Phase.middlegame ∧
    determinePhase 11 12 = Phase.endgame ∧
    determinePhase 40 12 = Phase.endgame :=
  ⟨(c7_phase_boundaries 10 3).1 (by decide),
    (c7_phase_boundaries 11 13).2.2 (by decide) (by decide),
    (c7_phase_boundaries 11 12).2.1 (by decide) (by decide),
    (c7_phase_boundaries 40 12).2.1 (by decide) (by decide)⟩

/-- C8: the classifier is perspective-symmetric: for every pair of raw
engine scores, the tier and the per-ply accuracy computed for White
equal those computed for Black on the negated raw scores. -/
theorem c8_perspective_symmetry (prevEval evalAfterMove : ℚ) :
    classifyMistake (plyEvalDrop Color.white prevEval evalAfterMove)
        = classifyMistake (plyEvalDrop Color.black (-prevEval) (-evalAfterMove)) ∧
    accuracyOf (plyEvalDrop Color.white prevEval evalAfterMove)
        = accuracyOf (plyEvalDrop Color.black (-prevEval) (-evalAfterMove)) := by
  have h : plyEvalDrop Color.black (-prevEval) (-evalAfterMove)
      = plyEvalDrop Color.white prevEval evalAfterMove := by
    simp [plyEvalDrop, adjustEval]
  rw [h]
  exact ⟨rfl, rfl⟩

/-- A dead worker swallows deliveries: the onmessage handler of a
terminated worker never fires. -/
lemma execOp_deliver_dead (u : EngineState) (h : u.workerAlive = false)
    (line : EngineLine) : execOp u (.deliver line) = u := by
  simp [execOp, h]

/-- A dead worker swallows every sequence of deliveries. -/
lemma execOps_deliver_dead (lines : List EngineLine) :
    ∀ (u : EngineState), u.workerAlive = false →
      execOps u (lines.map Op.deliver) = u := by
  induction lines with
  | nil => intro u _; rfl
  | cons l rest ih =>
      intro u h
      show execOps (execOp u (.deliver l)) (rest.map Op.deliver) = u
      rw [execOp_deliver_dead u h l]
      exact ih u h

/-- A submission appends exactly one fresh pending request. -/
lemma execOp_submit_requests (s : EngineState) (fen : String) (depth : Nat) :
    (execOp s (.submit fen depth)).requests = s.requests ++ [.pending {}] := by
  simp only [execOp]
  split <;> rfl

/-- One adapter step never produces a failed request status. -/
lemma execOp_noFailed (s : EngineState)
    (h : ∀ x ∈ s.requests, isFailed x = false) (op : Op) :
    ∀ x ∈ (execOp s op).requests, isFailed x = false := by
  cases op with
  | submit fen depth =>
      intro x hx
      rw [execOp_submit_requests] at hx
      rcases List.mem_append.mp hx with h1 | h2
      · exact h x h1
      · rw [List.mem_singleton.mp h2]; rfl
  | deliver line =>
      intro x hx
      simp only [execOp] at hx
      split at hx
      · split at hx
        · exact h x hx
        · split at hx
          · split at hx
            · rcases List.mem_or_eq_of_mem_set hx with h1 | h2
              · exact h x h1
              · rw [h2]; rfl
            · rcases List.mem_or_eq_of_mem_set hx with h1 | h2
              · exact h x h1
              · rw [h2]; rfl
          · exact h x hx
      · exact h x hx
  | terminate => exact h

/-- No run of the adapter ever produces a failed request status. -/
lemma execOps_noFailed (ops : List Op) :
    ∀ (s : EngineState), (∀ x ∈ s.requests, isFailed x = false) →
      ∀ x ∈ (execOps s ops).requests, isFailed x = false := by
  induction ops with
  | nil => intro s h; exact h
  | cons op rest ih =>
      intro s h
      exact ih (execOp s op) (execOp_noFailed s h op)

/-- C4 counterexample: two back-to-back submissions on a fresh engine.
Both command pairs are written immediately in submission order, the
outbound line of the second request is on the conduit, yet no resolution
event has occurred and the first request is still pending: the second
write does not wait for the first Future to settle. -/
theorem c4_write_before_settle_counterexample :
    (execRun [.submit ("A") 15, .submit ("B") 15]).log
      = [.write ("position fen A"), .write ("go depth 15"),
         .write ("position fen B"), .write ("go depth 15")] ∧
    Event.write ("position fen B") ∈ (execRun [.submit ("A") 15, .submit ("B") 15]).log ∧
    Event.resolve 0 ∉ (execRun [.submit ("A") 15, .submit ("B") 15]).log ∧
    statusOf (execRun [.submit ("A") 15, .submit ("B") 15]) 0 = some (.pending {}) := by
  decide

/-- C4 (amended): a submit call writes its two command lines to the
conduit immediately and unconditionally, whatever requests are still
pending; the existing request statuses are untouched and the new request
is appended pending. Strict request-then-response serialization
therefore holds only when the caller awaits each Future before the next
submit, which is how analyzeGame drives the channel. -/
theorem c4_amended_submit_writes_immediately (s : EngineState) (fen : String) (depth : Nat) :
    (execOp s (.submit fen depth)).log
      = s.log ++ [.write ("position fen " ++ fen), .write ("go depth " ++ toString depth)] ∧
    (execOp s (.submit fen depth)).requests = s.requests ++ [.pending {}] := by
  constructor
  · simp only [execOp]
    split <;> rfl
  · exact execOp_submit_requests s fen depth

/-- C5 counterexample: terminate while one submit is pending. The
request is neither rejected with EngineTerminated nor resolved: its
status is still the untouched pending accumulator after the worker
died. -/
theorem c5_terminate_counterexample :
    statusOf (execRun [.submit ("A") 15, .terminate]) 0 = some (.pending {}) ∧
    statusOf (execRun [.submit ("A") 15, .terminate]) 0 ≠ some (.failed .terminated) ∧
    (execRun [.submit ("A") 15, .terminate]).workerAlive = false := by
  decide

/-- C5 (amended): stopping the channel never settles a pending Future:
terminate kills the worker and clears the ready flag but leaves every
request status exactly as it was, and every message delivered after the
worker died is swallowed, so a pending request stays pending (it is
never rejected with EngineTerminated, and it also never resolves with
partial, stale or default data). -/
theorem c5_amended_terminate_settles_nothing (s : EngineState) (lines : List EngineLine) :
    (execOps (execOp s .terminate) (lines.map Op.deliver)).requests = s.requests := by
  rw [execOps_deliver_dead lines (execOp s .terminate) rfl]
  rfl

/-- C6 counterexample: a submit issued after the channel was stopped.
Instead of failing with EngineUnavailable, the call re-initializes the
worker (workerAlive and ready are true again) and registers a new
pending request that has not failed. -/
theorem c6_no_unavailable_counterexample :
    statusOf (execRun [.submit ("A") 15, .terminate, .submit ("B") 12]) 1
      = some (.pending {}) ∧
    statusOf (execRun [.submit ("A") 15, .terminate, .submit ("B") 12]) 1
      ≠ some (.failed .unavailable) ∧
    (execRun [.submit ("A") 15, .terminate, .submit ("B") 12]).workerAlive = true ∧
    (execRun [.submit ("A") 15, .terminate, .submit ("B") 12]).ready = true := by
  decide

/-- C6 (amended): neither analyze nor evaluatePosition ever fails: the
adapter has no timeout mechanism and no EngineUnavailable rejection, so
under every schedule of submissions, deliveries and terminations every
request status is pending or resolved, never failed with EvaluationTimeout,
EngineUnavailable or any other error; a submit on a stopped channel
re-initializes the worker instead of failing. -/
theorem c6_amended_no_failure_path (ops : List Op) (id : Nat) (r : ReqStatus)
    (h : statusOf (execRun ops) id = some r) : isFailed r = false := by
  exact execOps_noFailed ops {} (by intro x hx; cases hx) r (List.get?_mem h)

/-- C6 amended witness: a single submission leaves request 0 pending,
and a pending status is not a failure. -/
theorem c6_amended_no_failure_path_witness :
    statusOf (execRun [Op.submit ("A") 15]) 0 = some (.pending {}) ∧
    isFailed (.pending {}) = false :=
  ⟨by decide, c6_amended_no_failure_path [Op.submit ("A") 15] 0 (.pending {}) (by decide)⟩

/-- C9: a mate score line saturates the recorded evaluation to the
extreme value: the accumulator holds +100 when the mate count is
positive and -100 otherwise, whatever else the line carries and whatever
was accumulated before; and a request that saw such a line resolves with
that saturated evaluation (together with the recorded mate count), which
is all that evaluatePosition and the classifier ever see. -/
theorem c9_mate_saturates (n : ℤ) (dOpt : Option Nat) (pvOpt : Option (List String))
    (acc : ReqAcc) (mv fen : String) :
    (applyInfo acc { depth := dOpt, score := some (.mate n), pv := pvOpt }).evaluation
      = (if n > 0 then (100 : ℚ) else -100) ∧
    (applyInfo acc { depth := dOpt, score := some (.mate n), pv := pvOpt }).mate = some n ∧
    statusOf
        (execRun [.submit fen 15,
          .deliver (.info { depth := none, score := some (.mate n), pv := none }),
          .deliver (.bestmove mv)]) 0
      = some (.resolved
          { move := mv, evaluation := if n > 0 then (100 : ℚ) else -100,
            mate := some n, depth := 0, pv := [] }) := by
  refine ⟨?_, ?_, ?_⟩
  · cases dOpt <;> cases pvOpt <;> rfl
  · cases dOpt <;> cases pvOpt <;> rfl
  · rfl

/-- C10: for every input game and tracked colour, the report returned
by analyzeGame has a brilliant-move count of exactly 0: the increment
branch demands a none tier, which bounds the absolute delta below 0.5,
together with a delta below -1. -/
theorem c10_no_brilliant_moves (history : List PlyInput) (c : Color) :
    (analyzeGame history c).brilliantMoves = 0 := by
  unfold analyzeGame finalizeReport
  simp only [runPlies_brilliantMoves]
  rfl

end NexusChess
